import Mathlib

/-!
Verification development for the browser quiz generator (src/2.0/1.js).

The program is a single JS file.  We shallowly embed the parts the
specification talks about:

* `generateQuestionsWithAI` (lines 114-209): the question provider.  Its
  input is modelled by `ProviderResponse` (the `fetch` outcome) together
  with a `parse` oracle standing for `JSON.parse` applied to the model
  text payload.  JSON values are modelled by `Json` (numbers as `Int`;
  no claim depends on non-integer numerics).  JS exceptions thrown inside
  the `try` block are modelled by `Except JsErr`; the `catch` block turns
  any thrown error into an alert plus an empty array, exactly as in the
  source.  The three `alert` calls of the source are modelled by `Alert`.

* the quiz state (globals `currentQuestions`, `currentQuestionIndex`,
  `score`, `answeredThisQuestion`, lines 29-32) as `QuizState`, with
  `selectOption`, `loadQuestion` / `loadQuestionState`, `loadNextQuestion`
  translated from lines 241-305.  The CSS class placed on the selected
  option button (the stored outcome of answering) is modelled by the
  `markedOutcome` field; clearing `optionsContainer` in `loadQuestion`
  resets it.

* the controller `startQuiz` / `retakeQuiz` (lines 215-236, 320-322) over
  an `AppState` holding the session and the `hidden`-class flags of the
  four screen sections.
-/

/-- JSON values, as produced by `JSON.parse` / `response.json()`.
Numbers are modelled as integers. -/
inductive Json where
  | null
  | bool (b : Bool)
  | num (n : Int)
  | str (s : String)
  | arr (elems : List Json)
  | obj (fields : List (String × Json))

/-- Errors thrown inside the `try` block of `generateQuestionsWithAI`:
the explicit `throw new Error` on a non-ok response (line 166), JSON
syntax errors from `response.json()` / `JSON.parse`, and `TypeError`
from reading a property of `null`/`undefined`. -/
inductive JsErr where
  | httpError (status : Nat) (body : String)
  | syntaxError (msg : String)
  | typeError (msg : String)
deriving DecidableEq

/-- The `error.message` of a thrown error; for the line-166 throw this is the
template string carrying the status and the body. -/
def JsErr.message : JsErr → String
  | .httpError status body =>
      "HTTP error! status: " ++ toString status ++ ", body: " ++ body
  | .syntaxError m => m
  | .typeError m => m

/-- The three user-visible `alert` notices of `generateQuestionsWithAI`:
line 191 (parsed questions fail validation), line 197 (response structure
unexpected), line 203 (the `catch` block, carrying `error.message`). -/
inductive Alert where
  | parseFailed
  | noValidQuestions
  | generationFailed (msg : String)
deriving DecidableEq

/-- The outcome of the `fetch` at lines 157-161, after awaiting:
`ok`/`status`, the `response.text()` body read in the error branch, and
the `response.json()` result (a thrown syntax error or a `Json` value). -/
structure ProviderResponse where
  ok : Bool
  status : Nat
  errorBody : String
  json : Except JsErr Json

/-- The message of the `TypeError` raised by `q.question` when `q` is
`null` (the only throwing access inside the validation callback). -/
def nullQuestionMsg : String := "Cannot read properties of null (reading question)"

/-- JS property access `v.k` where `v` may be `undefined` (`none`):
throws `TypeError` on `undefined`/`null`, looks the key up on objects,
and yields `undefined` on other values. -/
def jsGetE : Option Json → String → Except JsErr (Option Json)
  | none, k => .error (.typeError ("Cannot read properties of undefined (reading " ++ k ++ ")"))
  | some .null, k => .error (.typeError ("Cannot read properties of null (reading " ++ k ++ ")"))
  | some (.obj kvs), k => .ok ((kvs.find? (fun p => p.1 == k)).map (fun p => p.2))
  | some _, _ => .ok none

/-- Field access on a value already known non-null (used inside the
validation callback, where `q` is matched against `null` first). -/
def jsGetF : Json → String → Option Json
  | .obj kvs, k => (kvs.find? (fun p => p.1 == k)).map (fun p => p.2)
  | _, _ => none

/-- JS truthiness of a (non-undefined) value. -/
def jsTruthy : Json → Bool
  | .null => false
  | .bool b => b
  | .num n => n != 0
  | .str s => s != ""
  | .arr _ => true
  | .obj _ => true

/-- The test `v.length > 0` on a truthy value: array and string lengths;
on plain objects a numeric `length` field; `undefined > 0` is false. -/
def jsLenPos : Json → Bool
  | .arr xs => xs.length > 0
  | .str s => s.length > 0
  | .obj kvs =>
      match (kvs.find? (fun p => p.1 == "length")).map (fun p => p.2) with
      | some (Json.num n) => n > 0
      | _ => false
  | _ => false

/-- Indexing `v[0]` on a truthy value: array head, first character of a
string, field `"0"` of a plain object, `undefined` otherwise. -/
def jsIndex0 : Json → Option Json
  | .arr xs => xs.head?
  | .str s => s.data.head?.map (fun c => .str (String.singleton c))
  | .obj kvs => (kvs.find? (fun p => p.1 == "0")).map (fun p => p.2)
  | _ => none

/-- Is the value a JSON string?  (`typeof opt === "string"` on an array
element.) -/
def isStrJ : Json → Bool
  | .str _ => true
  | _ => false

/-- The test `typeof v.k === "string"` for an optional field value. -/
def isStrO : Option Json → Bool
  | some (.str _) => true
  | _ => false

/-- The test `Array.isArray(q.options) && q.options.length === 4 &&
q.options.every(opt => typeof opt === "string")` (line 184). -/
def isFourStrArr : Option Json → Bool
  | some (.arr opts) => opts.length == 4 && opts.all isStrJ
  | _ => false

/-- The test `q.options.includes(q.answer)` (line 185); in the source this runs
only after `q.answer` passed `typeof === "string"` and every option
passed the same test, so string-value comparison is exact. -/
def answerInOptions : Option Json → Option Json → Bool
  | some (.arr opts), some (.str a) =>
      opts.any (fun o => match o with | .str t => t == a | _ => false)
  | _, _ => false

/-- The per-element validation callback of lines 183-185 as a boolean,
for a non-null element. -/
def wellFormedQ (q : Json) : Bool :=
  isStrO (jsGetF q "question") &&
  isFourStrArr (jsGetF q "options") &&
  isStrO (jsGetF q "answer") &&
  answerInOptions (jsGetF q "options") (jsGetF q "answer")

/-- The check `parsedQuestions.every(q => ...)` (lines 182-186).  `every` stops at
the first failing element; reading `q.question` on a `null` element
throws a `TypeError` (caught by the outer `catch`). -/
def allValidQ : List Json → Except JsErr Bool
  | [] => .ok true
  | q :: rest =>
      match q with
      | .null => .error (.typeError nullQuestionMsg)
      | _ => if wellFormedQ q then allValidQ rest else .ok false

/-- The candidates-path check and text extraction of lines 173-177:
`result.candidates && result.candidates.length > 0 &&
result.candidates[0].content && result.candidates[0].content.parts &&
result.candidates[0].content.parts.length > 0`, then
`result.candidates[0].content.parts[0].text`.
`.ok none` is the falsy else-branch (line 194); `.ok (some t)` yields the
`text` field value (`t = none` when the field is absent). -/
def extractPartText (result : Json) : Except JsErr (Option (Option Json)) :=
  match jsGetE (some result) "candidates" with
  | .error e => .error e
  | .ok none => .ok none
  | .ok (some cand) =>
    if !jsTruthy cand then .ok none
    else if !jsLenPos cand then .ok none
    else
      match jsGetE (jsIndex0 cand) "content" with
      | .error e => .error e
      | .ok none => .ok none
      | .ok (some content) =>
        if !jsTruthy content then .ok none
        else
          match jsGetE (some content) "parts" with
          | .error e => .error e
          | .ok none => .ok none
          | .ok (some parts) =>
            if !jsTruthy parts then .ok none
            else if !jsLenPos parts then .ok none
            else
              match jsGetE (jsIndex0 parts) "text" with
              | .error e => .error e
              | .ok t => .ok (some t)

/-- The body of the `try` block, lines 156-199.  Results:
`.error e` — a thrown error (reaches the `catch`);
`.ok (qs, none)` — the validated questions returned at line 187;
`.ok ([], some a)` — one of the two alert-and-return-empty branches
(lines 188-193 and 194-199).  `parse` stands for `JSON.parse` applied to
the extracted `text` value. -/
def tryBody (parse : Option Json → Except JsErr Json) (resp : ProviderResponse) :
    Except JsErr (List Json × Option Alert) :=
  if !resp.ok then .error (.httpError resp.status resp.errorBody)
  else
    match resp.json with
    | .error e => .error e
    | .ok result =>
      match extractPartText result with
      | .error e => .error e
      | .ok none => .ok ([], some .noValidQuestions)
      | .ok (some tv) =>
        match parse tv with
        | .error e => .error e
        | .ok (.arr qs) =>
          match allValidQ qs with
          | .error e => .error e
          | .ok true => .ok (qs, none)
          | .ok false => .ok ([], some .parseFailed)
        | .ok _ => .ok ([], some .parseFailed)

/-- The function `generateQuestionsWithAI`, lines 114-209: the `try` body with the
`catch` block folded in (alert with `error.message`, return `[]`).
The returned list and the emitted alert (if any). -/
def generateQuestionsWithAI (parse : Option Json → Except JsErr Json)
    (resp : ProviderResponse) : List Json × Option Alert :=
  match tryBody parse resp with
  | .ok r => r
  | .error e => ([], some (.generationFailed (JsErr.message e)))

/-- A question record as consumed by the quiz flow: the source reads
exactly the fields `question`, `options`, `answer` of the stored parsed
objects (lines 244, 250, 258). -/
structure Question where
  question : String
  options : List String
  answer : String
deriving DecidableEq

/-- Reading the three fields of a stored (validated) question object. -/
def toQuestion (j : Json) : Question :=
  { question := match jsGetF j "question" with | some (.str s) => s | _ => ""
    options := match jsGetF j "options" with
               | some (.arr opts) =>
                   opts.map (fun o => match o with | .str t => t | _ => "")
               | _ => []
    answer := match jsGetF j "answer" with | some (.str s) => s | _ => "" }

/-- The module-level quiz state (lines 29-32), plus `markedOutcome`
modelling the correct/incorrect CSS class put on the selected option
button by `selectOption` (`none` = no selection marked yet; cleared when
`loadQuestion` rebuilds the option buttons). -/
structure QuizState where
  currentQuestions : List Question
  currentQuestionIndex : Nat
  score : Nat
  answeredThisQuestion : Bool
  markedOutcome : Option Bool
deriving DecidableEq

/-- The read of `currentQuestions[currentQuestionIndex]` (line 243); only done while
the index is in range, so the default is never observed in the flows we
verify. -/
def currentQuestion (st : QuizState) : Question :=
  st.currentQuestions.getD st.currentQuestionIndex ⟨"", [], ""⟩

/-- The handler `selectOption` (lines 269-293), state part.  `selectedOption` and
`correctAnswer` are the arguments bound by `loadQuestion` when it created
the option button (line 258); button disabling and the highlighting of
the correct answer on a miss are presentation effects outside the state.
-/
def selectOption (st : QuizState) (selectedOption correctAnswer : String) : QuizState :=
  if st.answeredThisQuestion then st
  else
    { st with
      answeredThisQuestion := true
      score := if selectedOption == correctAnswer then st.score + 1 else st.score
      markedOutcome := some (selectedOption == correctAnswer) }

/-- State effect of `loadQuestion` (lines 241-261): reset the answered
flag and rebuild the option buttons (clearing any outcome marking). -/
def loadQuestionState (st : QuizState) : QuizState :=
  { st with answeredThisQuestion := false, markedOutcome := none }

/-- What `loadQuestion` hands to the presentation surface. -/
structure Rendered where
  text : String
  options : List String
deriving DecidableEq

/-- The function `loadQuestion` (lines 241-261) with its rendering.  The source
shuffles a copy of the options with `sort` under a random comparator
(line 250); the result of such a sort is some permutation of the input
with implementation-defined order, modelled as a merge sort under an
arbitrary comparator `le`. -/
def loadQuestion (le : String → String → Bool) (st : QuizState) :
    QuizState × Rendered :=
  (loadQuestionState st,
   { text := (currentQuestion st).question
     options := (currentQuestion st).options.mergeSort le })

/-- The function `loadNextQuestion` (lines 298-305): bump the index; below the end,
load the next question, otherwise show the result card.  The boolean is
`true` exactly when `showResult` runs (the quiz is done). -/
def loadNextQuestion (st : QuizState) : QuizState × Bool :=
  let st2 := { st with currentQuestionIndex := st.currentQuestionIndex + 1 }
  if st2.currentQuestionIndex < st2.currentQuestions.length then
    (loadQuestionState st2, false)
  else
    (st2, true)

/-- The session right after a successful `startQuiz` (lines 229-235):
fresh index and score, then `loadQuestion`. -/
def startSession (qs : List Question) : QuizState :=
  loadQuestionState
    { currentQuestions := qs
      currentQuestionIndex := 0
      score := 0
      answeredThisQuestion := false
      markedOutcome := none }

/-- Iterated `loadNextQuestion` (state part). -/
def advances (st : QuizState) : Nat → QuizState
  | 0 => st
  | j + 1 => (loadNextQuestion (advances st j)).1

/-- One full user step on the current question: click an option (the
correct answer passed to the handler is the one `loadQuestion` captured
for the current question), then click Next. -/
def quizStep (st : QuizState) (sel : String) : QuizState :=
  (loadNextQuestion (selectOption st sel (currentQuestion st).answer)).1

/-- A complete run: start on `qs`, then one selection per question. -/
def runQuiz (qs : List Question) (sels : List String) : QuizState :=
  List.foldl quizStep (startSession qs) sels

/-- How many of the selections match their own question, pairing the
j-th selection with the j-th question. -/
def correctCount (qs : List Question) (sels : List String) : Nat :=
  (qs.zip sels).countP (fun p => p.2 == p.1.answer)

/-- The `hidden`-class state of the four screen sections. -/
structure UI where
  languageSelectionHidden : Bool
  loadingHidden : Bool
  quizHidden : Bool
  scoreCardHidden : Bool
deriving DecidableEq

/-- Controller-visible application state. -/
structure AppState where
  ui : UI
  session : QuizState
deriving DecidableEq

/-- The function `startQuiz` (lines 215-236) given the provider result, together with
the UI effects `generateQuestionsWithAI` performs on entry (show loading,
hide language selection, lines 115-116) and in its `finally` (hide
loading, line 207).  Returns the new application state and the alerts
emitted during the attempt. -/
def startQuizWith (provRes : List Json × Option Alert) (app : AppState) :
    AppState × List Alert :=
  let ui1 := { app.ui with loadingHidden := false, languageSelectionHidden := true }
  let ui2 := { ui1 with loadingHidden := true }
  let qs := provRes.1.map toQuestion
  let st1 := { app.session with currentQuestions := qs }
  let alerts := provRes.2.toList
  if qs.length = 0 then
    let uiF := { ui2 with languageSelectionHidden := false, quizHidden := true, scoreCardHidden := true }
    ({ ui := uiF, session := st1 }, alerts)
  else
    let st2 := { st1 with currentQuestionIndex := 0, score := 0 }
    let uiS := { ui2 with languageSelectionHidden := true, quizHidden := false, scoreCardHidden := true }
    ({ ui := uiS, session := loadQuestionState st2 }, alerts)

/-- The function `startQuiz` against an abstract provider called on the selected
topic (`languageSelect.value`, line 216). -/
def startQuiz (provider : String → List Json × Option Alert) (topic : String)
    (app : AppState) : AppState × List Alert :=
  startQuizWith (provider topic) app

/-- The function `retakeQuiz` (lines 320-322): exactly `startQuiz` again on the
unchanged topic. -/
def retakeQuiz (provider : String → List Json × Option Alert) (topic : String)
    (app : AppState) : AppState × List Alert :=
  startQuiz provider topic app

/-- The whole start flow against a modelled transport response: the
provider call chained into the controller. -/
def startQuizFull (parse : Option Json → Except JsErr Json)
    (resp : ProviderResponse) (app : AppState) : AppState × List Alert :=
  startQuizWith (generateQuestionsWithAI parse resp) app

/-- A well-formed parsed question (used as concrete input below). -/
def goodQ : Json :=
  Json.obj [("question", Json.str "q1"),
    ("options", Json.arr [Json.str "a", Json.str "b", Json.str "c", Json.str "d"]),
    ("answer", Json.str "a")]

/-- A parsed question whose answer is not among its options. -/
def badAnswerQ : Json :=
  Json.obj [("question", Json.str "q2"),
    ("options", Json.arr [Json.str "a", Json.str "b", Json.str "c", Json.str "d"]),
    ("answer", Json.str "zzz")]

/-- A response body whose single candidate part carries the text
`"payload"`. -/
def sampleResult : Json :=
  Json.obj [("candidates", Json.arr [Json.obj [("content",
    Json.obj [("parts", Json.arr [Json.obj [("text", Json.str "payload")]])])]])]

/-- A transport-successful response carrying `sampleResult`. -/
def sampleResp : ProviderResponse :=
  { ok := true, status := 200, errorBody := "", json := .ok sampleResult }

/-- A `JSON.parse` oracle mapping the text `"payload"` to a fixed value
and failing on everything else. -/
def parseTo (v : Json) : Option Json → Except JsErr Json := fun t =>
  match t with
  | some (.str "payload") => .ok v
  | _ => .error (.syntaxError "bad")

/-- A concrete application state: topic selection showing, a finished
prior attempt with score 3 over 5 stale questions still in the session. -/
def priorApp : AppState :=
  { ui := { languageSelectionHidden := false, loadingHidden := true,
            quizHidden := true, scoreCardHidden := false }
    session := { currentQuestions :=
                   [⟨"old1", ["a", "b", "c", "d"], "a"⟩,
                    ⟨"old2", ["a", "b", "c", "d"], "b"⟩,
                    ⟨"old3", ["a", "b", "c", "d"], "c"⟩,
                    ⟨"old4", ["a", "b", "c", "d"], "d"⟩,
                    ⟨"old5", ["a", "b", "c", "d"], "a"⟩]
                 currentQuestionIndex := 5
                 score := 3
                 answeredThisQuestion := true
                 markedOutcome := some false } }

/-! ## Helper lemmas about the validation of parsed questions -/

theorem wellFormedQ_null : wellFormedQ Json.null = false := rfl

theorem allValidQ_of_all (qs : List Json) (h : ∀ q ∈ qs, wellFormedQ q = true) :
    allValidQ qs = .ok true := by
  induction qs with
  | nil => rfl
  | cons q rest ih =>
    have hq : wellFormedQ q = true := h q (List.mem_cons_self q rest)
    have hq' : q ≠ Json.null := by
      intro hnull
      rw [hnull, wellFormedQ_null] at hq
      exact Bool.false_ne_true hq
    have hrest := ih (fun x hx => h x (List.mem_cons_of_mem q hx))
    cases q with
    | null => exact absurd rfl hq'
    | bool b => simpa [allValidQ, hq] using hrest
    | num n => simpa [allValidQ, hq] using hrest
    | str s => simpa [allValidQ, hq] using hrest
    | arr xs => simpa [allValidQ, hq] using hrest
    | obj kvs => simpa [allValidQ, hq] using hrest

theorem allValidQ_of_bad (qs : List Json) (h : ∃ q ∈ qs, wellFormedQ q = false) :
    allValidQ qs = .ok false ∨
    allValidQ qs = .error (.typeError nullQuestionMsg) := by
  induction qs with
  | nil => simp at h
  | cons q rest ih =>
    cases q with
    | null => right; rfl
    | bool b =>
      by_cases hq : wellFormedQ (Json.bool b) = true
      · obtain ⟨x, hx, hbad⟩ := h
        rcases List.mem_cons.mp hx with hxq | hxr
        · rw [hxq] at hbad; rw [hq] at hbad; exact absurd hbad (by simp)
        · simpa [allValidQ, hq] using ih ⟨x, hxr, hbad⟩
      · left; simp [allValidQ, hq]
    | num n =>
      by_cases hq : wellFormedQ (Json.num n) = true
      · obtain ⟨x, hx, hbad⟩ := h
        rcases List.mem_cons.mp hx with hxq | hxr
        · rw [hxq] at hbad; rw [hq] at hbad; exact absurd hbad (by simp)
        · simpa [allValidQ, hq] using ih ⟨x, hxr, hbad⟩
      · left; simp [allValidQ, hq]
    | str s =>
      by_cases hq : wellFormedQ (Json.str s) = true
      · obtain ⟨x, hx, hbad⟩ := h
        rcases List.mem_cons.mp hx with hxq | hxr
        · rw [hxq] at hbad; rw [hq] at hbad; exact absurd hbad (by simp)
        · simpa [allValidQ, hq] using ih ⟨x, hxr, hbad⟩
      · left; simp [allValidQ, hq]
    | arr xs =>
      by_cases hq : wellFormedQ (Json.arr xs) = true
      · obtain ⟨x, hx, hbad⟩ := h
        rcases List.mem_cons.mp hx with hxq | hxr
        · rw [hxq] at hbad; rw [hq] at hbad; exact absurd hbad (by simp)
        · simpa [allValidQ, hq] using ih ⟨x, hxr, hbad⟩
      · left; simp [allValidQ, hq]
    | obj kvs =>
      by_cases hq : wellFormedQ (Json.obj kvs) = true
      · obtain ⟨x, hx, hbad⟩ := h
        rcases List.mem_cons.mp hx with hxq | hxr
        · rw [hxq] at hbad; rw [hq] at hbad; exact absurd hbad (by simp)
        · simpa [allValidQ, hq] using ih ⟨x, hxr, hbad⟩
      · left; simp [allValidQ, hq]

theorem wellFormedQ_inv (q : Json) (h : wellFormedQ q = true) :
    ∃ s opts a, jsGetF q "question" = some (.str s) ∧
      jsGetF q "options" = some (.arr opts) ∧
      jsGetF q "answer" = some (.str a) ∧
      opts.length = 4 ∧ (∀ o ∈ opts, isStrJ o = true) ∧ Json.str a ∈ opts := by
  unfold wellFormedQ at h
  simp only [Bool.and_eq_true] at h
  obtain ⟨⟨⟨hques, hopts⟩, hans⟩, hmem⟩ := h
  rcases hq : jsGetF q "question" with _ | jq
  · rw [hq] at hques; exact absurd hques (by simp [isStrO])
  rcases ho : jsGetF q "options" with _ | jo
  · rw [ho] at hopts; exact absurd hopts (by simp [isFourStrArr])
  rcases ha : jsGetF q "answer" with _ | ja
  · rw [ha] at hans; exact absurd hans (by simp [isStrO])
  rw [hq] at hques; rw [ho] at hopts hmem; rw [ha] at hans hmem
  cases jq with
  | str s =>
    cases jo with
    | arr opts =>
      cases ja with
      | str a =>
        refine ⟨s, opts, a, rfl, rfl, rfl, ?_, ?_, ?_⟩
        · simp only [isFourStrArr, Bool.and_eq_true, beq_iff_eq] at hopts
          exact hopts.1
        · simp only [isFourStrArr, Bool.and_eq_true, List.all_eq_true] at hopts
          exact hopts.2
        · simp only [answerInOptions, List.any_eq_true] at hmem
          obtain ⟨o, hoin, hoeq⟩ := hmem
          cases o with
          | str t =>
            have : t = a := by simpa using hoeq
            rw [this] at hoin; exact hoin
          | null => simp at hoeq
          | bool b => simp at hoeq
          | num n => simp at hoeq
          | arr xs => simp at hoeq
          | obj kvs => simp at hoeq
      | null => simp [isStrO] at hans
      | bool b => simp [isStrO] at hans
      | num n => simp [isStrO] at hans
      | arr xs => simp [isStrO] at hans
      | obj kvs => simp [isStrO] at hans
    | null => simp [isFourStrArr] at hopts
    | bool b => simp [isFourStrArr] at hopts
    | num n => simp [isFourStrArr] at hopts
    | str t => simp [isFourStrArr] at hopts
    | obj kvs => simp [isFourStrArr] at hopts
  | null => simp [isStrO] at hques
  | bool b => simp [isStrO] at hques
  | num n => simp [isStrO] at hques
  | arr xs => simp [isStrO] at hques
  | obj kvs => simp [isStrO] at hques

/-! ## Claims about the question provider -/

/-- C1: validation of the parsed provider payload is all-or-nothing: if
any element of the parsed array fails the shape contract (string
`question`, `options` an array of exactly 4 strings, `answer` a string
member of its own `options`), `generateQuestionsWithAI` fails — the
invalid-question-set notice, or, when the first offending element is the
JSON value `null`, the caught `TypeError` notice — and returns no
questions at all, not even the well-formed ones. -/
theorem generate_rejects_whole_array_on_invalid_element
    (parse : Option Json → Except JsErr Json) (resp : ProviderResponse)
    (result : Json) (tv : Option Json) (qs : List Json)
    (hok : resp.ok = true) (hjson : resp.json = .ok result)
    (hpath : extractPartText result = .ok (some tv))
    (hparse : parse tv = .ok (.arr qs))
    (hbad : ∃ q ∈ qs, wellFormedQ q = false) :
    (generateQuestionsWithAI parse resp).1 = [] ∧
    ((generateQuestionsWithAI parse resp).2 = some .parseFailed ∨
     (generateQuestionsWithAI parse resp).2 =
       some (.generationFailed nullQuestionMsg)) := by
  rcases allValidQ_of_bad qs hbad with hval | hval
  · constructor
    · simp [generateQuestionsWithAI, tryBody, hok, hjson, hpath, hparse, hval]
    · left
      simp [generateQuestionsWithAI, tryBody, hok, hjson, hpath, hparse, hval]
  · constructor
    · simp [generateQuestionsWithAI, tryBody, hok, hjson, hpath, hparse, hval]
    · right
      simp [generateQuestionsWithAI, tryBody, hok, hjson, hpath, hparse, hval,
        JsErr.message]

theorem extractPartText_sampleResult :
    extractPartText sampleResult = .ok (some (some (Json.str "payload"))) := rfl

/-- Witness for the C1 theorem at a concrete input: a two-element parsed
array whose second element has an answer outside its options; the
well-formed first element is rejected together with it. -/
theorem generate_rejects_whole_array_on_invalid_element_witness :
    sampleResp.ok = true ∧
    ((generateQuestionsWithAI (parseTo (Json.arr [goodQ, badAnswerQ])) sampleResp).1
        = [] ∧
     ((generateQuestionsWithAI (parseTo (Json.arr [goodQ, badAnswerQ])) sampleResp).2
        = some .parseFailed ∨
      (generateQuestionsWithAI (parseTo (Json.arr [goodQ, badAnswerQ])) sampleResp).2
        = some (.generationFailed nullQuestionMsg))) := by
  refine ⟨rfl, generate_rejects_whole_array_on_invalid_element _ _
    sampleResult (some (Json.str "payload")) [goodQ, badAnswerQ]
    rfl rfl extractPartText_sampleResult rfl ?_⟩
  exact ⟨badAnswerQ, by simp, by rfl⟩

/-- C2: when the payload parses to an array of well-formed questions,
`generateQuestionsWithAI` succeeds with no alert, returning exactly that
array (hence a sequence of the same length), and every returned element
carries an `answer` that is a member of its own 4-string `options`. -/
theorem generate_returns_wellformed_array
    (parse : Option Json → Except JsErr Json) (resp : ProviderResponse)
    (result : Json) (tv : Option Json) (qs : List Json)
    (hok : resp.ok = true) (hjson : resp.json = .ok result)
    (hpath : extractPartText result = .ok (some tv))
    (hparse : parse tv = .ok (.arr qs))
    (hgood : ∀ q ∈ qs, wellFormedQ q = true) :
    generateQuestionsWithAI parse resp = (qs, none) ∧
    (generateQuestionsWithAI parse resp).1.length = qs.length ∧
    ∀ q ∈ (generateQuestionsWithAI parse resp).1,
      ∃ a opts, jsGetF q "answer" = some (.str a) ∧
        jsGetF q "options" = some (.arr opts) ∧
        opts.length = 4 ∧ Json.str a ∈ opts := by
  have hval := allValidQ_of_all qs hgood
  have hmain : generateQuestionsWithAI parse resp = (qs, none) := by
    simp [generateQuestionsWithAI, tryBody, hok, hjson, hpath, hparse, hval]
  refine ⟨hmain, by rw [hmain], ?_⟩
  rw [hmain]
  intro q hq
  obtain ⟨s, opts, a, _, ho, ha, hlen, _, hmem⟩ := wellFormedQ_inv q (hgood q hq)
  exact ⟨a, opts, ha, ho, hlen, hmem⟩

/-- Witness for the C2 theorem: a singleton well-formed array is returned
unchanged with no alert. -/
theorem generate_returns_wellformed_array_witness :
    sampleResp.ok = true ∧
    (generateQuestionsWithAI (parseTo (Json.arr [goodQ])) sampleResp
        = ([goodQ], none) ∧
     (generateQuestionsWithAI (parseTo (Json.arr [goodQ])) sampleResp).1.length
        = [goodQ].length ∧
     ∀ q ∈ (generateQuestionsWithAI (parseTo (Json.arr [goodQ])) sampleResp).1,
       ∃ a opts, jsGetF q "answer" = some (.str a) ∧
         jsGetF q "options" = some (.arr opts) ∧
         opts.length = 4 ∧ Json.str a ∈ opts) := by
  refine ⟨rfl, generate_returns_wellformed_array _ _
    sampleResult (some (Json.str "payload")) [goodQ]
    rfl rfl extractPartText_sampleResult rfl ?_⟩
  intro q hq
  rcases List.mem_singleton.mp hq with h
  rw [h]; rfl

/-- C7: on a non-success transport response the provider throws at line
166 and the catch block surfaces exactly the transport failure notice,
whose message carries the status and the body; no questions are
returned and no other failure kind is reported. -/
theorem generate_transport_error
    (parse : Option Json → Except JsErr Json) (resp : ProviderResponse)
    (hko : resp.ok = false) :
    generateQuestionsWithAI parse resp =
      ([], some (.generationFailed
        ("HTTP error! status: " ++ toString resp.status ++ ", body: " ++
          resp.errorBody))) := by
  simp [generateQuestionsWithAI, tryBody, hko, JsErr.message]

/-- Witness for the C7 theorem: a 500 response with body `"boom"`. -/
theorem generate_transport_error_witness :
    (⟨false, 500, "boom", .ok Json.null⟩ : ProviderResponse).ok = false ∧
    generateQuestionsWithAI (parseTo Json.null)
        ⟨false, 500, "boom", .ok Json.null⟩ =
      ([], some (.generationFailed "HTTP error! status: 500, body: boom")) := by
  exact ⟨rfl, generate_transport_error _ _ rfl⟩

/-- C10: the provider boundary is total — every outcome either carries no
alert (success) or returns the empty list; a caller therefore learns of
failure only through emptiness of the returned sequence (the Lean model
is a total function: the catch block at lines 200-205 converts every
thrown error into an empty return). -/
theorem generate_total_boundary
    (parse : Option Json → Except JsErr Json) (resp : ProviderResponse) :
    (generateQuestionsWithAI parse resp).1 = [] ∨
    (generateQuestionsWithAI parse resp).2 = none := by
  unfold generateQuestionsWithAI
  rcases h : tryBody parse resp with e | r
  · left; rfl
  · unfold tryBody at h
    split at h
    · exact absurd h (by simp)
    · split at h
      · exact absurd h (by simp)
      · split at h
        · exact absurd h (by simp)
        · simp only [Except.ok.injEq] at h
          subst h; left; rfl
        · split at h
          · exact absurd h (by simp)
          · split at h
            · exact absurd h (by simp)
            · simp only [Except.ok.injEq] at h
              subst h; right; rfl
            · simp only [Except.ok.injEq] at h
              subst h; left; rfl
          · simp only [Except.ok.injEq] at h
            subst h; left; rfl

/-! ## Claims about the quiz state -/

/-- C3: `selectOption` is a guarded no-op once the current question has
been answered: with `answeredThisQuestion` set, any further call — with
any selection and any captured correct answer — returns the state
unchanged, so the score and the stored outcome marking are untouched. -/
theorem selectOption_idempotent_when_answered
    (st : QuizState) (sel ans : String) (h : st.answeredThisQuestion = true) :
    selectOption st sel ans = st ∧
    (selectOption st sel ans).score = st.score ∧
    (selectOption st sel ans).markedOutcome = st.markedOutcome := by
  have heq : selectOption st sel ans = st := by simp [selectOption, h]
  exact ⟨heq, by rw [heq], by rw [heq]⟩

/-- Witness for the C3 theorem: a session that already answered (and
scored) its first question absorbs a second, different selection. -/
theorem selectOption_idempotent_when_answered_witness :
    (⟨[⟨"q", ["a", "b", "c", "d"], "a"⟩], 0, 1, true, some true⟩ :
        QuizState).answeredThisQuestion = true ∧
    (selectOption ⟨[⟨"q", ["a", "b", "c", "d"], "a"⟩], 0, 1, true, some true⟩
        "b" "a" =
      ⟨[⟨"q", ["a", "b", "c", "d"], "a"⟩], 0, 1, true, some true⟩ ∧
     (selectOption ⟨[⟨"q", ["a", "b", "c", "d"], "a"⟩], 0, 1, true, some true⟩
        "b" "a").score = 1 ∧
     (selectOption ⟨[⟨"q", ["a", "b", "c", "d"], "a"⟩], 0, 1, true, some true⟩
        "b" "a").markedOutcome = some true) := by
  exact ⟨rfl, selectOption_idempotent_when_answered _ "b" "a" rfl⟩

theorem advances_invariant (qs : List Question) (j : Nat) (hj : j ≤ qs.length) :
    (advances (startSession qs) j).currentQuestions = qs ∧
    (advances (startSession qs) j).currentQuestionIndex = j ∧
    (advances (startSession qs) j).answeredThisQuestion = false := by
  induction j with
  | zero => exact ⟨rfl, rfl, rfl⟩
  | succ j ih =>
    obtain ⟨hq, hi, ha⟩ := ih (Nat.le_of_succ_le hj)
    by_cases hlt : j + 1 < qs.length
    · simp [advances, loadNextQuestion, loadQuestionState, hq, hi, hlt]
    · simp [advances, loadNextQuestion, loadQuestionState, hq, hi, hlt, ha]

/-- C4: from a freshly started session over a non-empty list of `n`
questions, the `(j+1)`-th `loadNextQuestion` call reports done exactly
when `j + 1 = n`; each call leaves `currentQuestionIndex` incremented to
`j + 1` and `answeredThisQuestion` equal to `false`. -/
theorem advance_done_exactly_at_end (qs : List Question) (_hne : qs ≠ [])
    (j : Nat) (hj : j < qs.length) :
    ((loadNextQuestion (advances (startSession qs) j)).2 = true ↔
      j + 1 = qs.length) ∧
    (advances (startSession qs) (j + 1)).currentQuestionIndex = j + 1 ∧
    (advances (startSession qs) (j + 1)).answeredThisQuestion = false := by
  obtain ⟨hq, hi, ha⟩ := advances_invariant qs j (Nat.le_of_lt hj)
  obtain ⟨_, hi', ha'⟩ := advances_invariant qs (j + 1) hj
  refine ⟨?_, hi', ha'⟩
  by_cases hlt : j + 1 < qs.length
  · simp [loadNextQuestion, hq, hi, hlt]
    omega
  · simp [loadNextQuestion, hq, hi, hlt]
    omega

/-- Witness for the C4 theorem: a fresh two-question session; the first
advance is not done, lands on index 1, unanswered. -/
theorem advance_done_exactly_at_end_witness :
    ([⟨"q1", ["a", "b", "c", "d"], "a"⟩, ⟨"q2", ["a", "b", "c", "d"], "b"⟩] :
        List Question) ≠ [] ∧
    (0 : Nat) < ([⟨"q1", ["a", "b", "c", "d"], "a"⟩,
        ⟨"q2", ["a", "b", "c", "d"], "b"⟩] : List Question).length ∧
    (((loadNextQuestion (advances (startSession
        [⟨"q1", ["a", "b", "c", "d"], "a"⟩,
         ⟨"q2", ["a", "b", "c", "d"], "b"⟩]) 0)).2 = true ↔
      0 + 1 = ([⟨"q1", ["a", "b", "c", "d"], "a"⟩,
        ⟨"q2", ["a", "b", "c", "d"], "b"⟩] : List Question).length) ∧
     (advances (startSession [⟨"q1", ["a", "b", "c", "d"], "a"⟩,
        ⟨"q2", ["a", "b", "c", "d"], "b"⟩]) (0 + 1)).currentQuestionIndex
        = 0 + 1 ∧
     (advances (startSession [⟨"q1", ["a", "b", "c", "d"], "a"⟩,
        ⟨"q2", ["a", "b", "c", "d"], "b"⟩]) (0 + 1)).answeredThisQuestion
        = false) := by
  exact ⟨by decide, by decide,
    advance_done_exactly_at_end _ (by decide) 0 (by decide)⟩

theorem selectOption_score_le (st : QuizState) (sel ans : String) :
    (selectOption st sel ans).score ≤ st.score + 1 := by
  by_cases h : st.answeredThisQuestion = true
  · simp [selectOption, h]
  · by_cases hb : (sel == ans) = true
    · simp [selectOption, h, hb]
    · simp [selectOption, h, hb]

theorem correctCount_le_left (qs : List Question) (sels : List String) :
    correctCount qs sels ≤ qs.length := by
  calc correctCount qs sels ≤ (qs.zip sels).length := List.countP_le_length _
    _ ≤ qs.length := by rw [List.length_zip]; exact Nat.min_le_left _ _

theorem correctCount_le_right (qs : List Question) (sels : List String) :
    correctCount qs sels ≤ sels.length := by
  calc correctCount qs sels ≤ (qs.zip sels).length := List.countP_le_length _
    _ ≤ sels.length := by rw [List.length_zip]; exact Nat.min_le_right _ _

theorem loadNextQuestion_proj (st : QuizState) :
    (loadNextQuestion st).1.currentQuestions = st.currentQuestions ∧
    (loadNextQuestion st).1.currentQuestionIndex =
      st.currentQuestionIndex + 1 ∧
    (loadNextQuestion st).1.score = st.score := by
  by_cases h : st.currentQuestionIndex + 1 < st.currentQuestions.length
  · simp [loadNextQuestion, loadQuestionState, h]
  · simp [loadNextQuestion, h]

theorem loadNextQuestion_answered_of_lt (st : QuizState)
    (h : st.currentQuestionIndex + 1 < st.currentQuestions.length) :
    (loadNextQuestion st).1.answeredThisQuestion = false := by
  simp [loadNextQuestion, loadQuestionState, h]

theorem selectOption_proj (st : QuizState) (sel ans : String)
    (ha : st.answeredThisQuestion = false) :
    (selectOption st sel ans).currentQuestions = st.currentQuestions ∧
    (selectOption st sel ans).currentQuestionIndex =
      st.currentQuestionIndex ∧
    (selectOption st sel ans).score =
      (if sel == ans then st.score + 1 else st.score) := by
  simp [selectOption, ha]

theorem foldl_quizStep_score (qs : List Question) (sels : List String) :
    ∀ st : QuizState, st.currentQuestions = qs →
      st.answeredThisQuestion = false →
      st.currentQuestionIndex + sels.length ≤ qs.length →
      (List.foldl quizStep st sels).score =
        st.score + correctCount (qs.drop st.currentQuestionIndex) sels := by
  induction sels with
  | nil =>
    intro st _ _ _
    simp [correctCount]
  | cons sel rest ih =>
    intro st hq ha hlen
    have hidx : st.currentQuestionIndex < qs.length := by
      simp only [List.length_cons] at hlen; omega
    have hcur : currentQuestion st = qs[st.currentQuestionIndex] := by
      simp [currentQuestion, hq, List.getD_eq_getElem?_getD,
        List.getElem?_eq_getElem hidx]
    have hdrop : qs.drop st.currentQuestionIndex =
        qs[st.currentQuestionIndex] :: qs.drop (st.currentQuestionIndex + 1) :=
      List.drop_eq_getElem_cons hidx
    have hcount : correctCount (qs.drop st.currentQuestionIndex) (sel :: rest) =
        (if sel == qs[st.currentQuestionIndex].answer then 1 else 0) +
          correctCount (qs.drop (st.currentQuestionIndex + 1)) rest := by
      rw [hdrop]
      simp only [correctCount, List.zip_cons_cons, List.countP_cons]
      by_cases hb : (sel == qs[st.currentQuestionIndex].answer) = true
      · simp [hb]; omega
      · simp [hb]
    obtain ⟨hs1q, hs1i, hs1s⟩ :=
      selectOption_proj st sel (currentQuestion st).answer ha
    obtain ⟨hXq, hXi, hXs⟩ :=
      loadNextQuestion_proj (selectOption st sel (currentQuestion st).answer)
    have hfold : List.foldl quizStep st (sel :: rest) =
        List.foldl quizStep
          (loadNextQuestion
            (selectOption st sel (currentQuestion st).answer)).1 rest := rfl
    by_cases hlt : st.currentQuestionIndex + 1 < qs.length
    · have hXa : (loadNextQuestion
          (selectOption st sel (currentQuestion st).answer)).1.answeredThisQuestion
          = false := by
        apply loadNextQuestion_answered_of_lt
        rw [hs1q, hs1i, hq]
        exact hlt
      have hrec := ih
        ((loadNextQuestion (selectOption st sel (currentQuestion st).answer)).1)
        (by rw [hXq, hs1q, hq]) hXa
        (by rw [hXi, hs1i]
            simp only [List.length_cons] at hlen; omega)
      rw [hfold, hrec, hXi, hs1i, hXs, hs1s, hcount, hcur]
      by_cases hb : (sel == qs[st.currentQuestionIndex].answer) = true
      · simp [hb]; omega
      · simp [hb]
    · have hrest : rest = [] := by
        simp only [List.length_cons] at hlen
        have : rest.length = 0 := by omega
        exact List.length_eq_zero.mp this
      subst hrest
      rw [hfold]
      simp only [List.foldl_nil]
      rw [hXs, hs1s, hcount, hcur]
      have hz : correctCount (qs.drop (st.currentQuestionIndex + 1)) [] = 0 := by
        simp [correctCount]
      rw [hz]
      by_cases hb : (sel == qs[st.currentQuestionIndex].answer) = true
      · simp [hb]
      · simp [hb]

/-- C5: over a complete run of `K` questions with exactly one selection
recorded per question, the final score equals the number `A` of
selections matching their own question (the score is a natural number,
so `0 ≤ score` throughout), and at every point of the run — after each
full step and also right after any click on the current question — the
score stays at most `K`. -/
theorem final_score_counts_correct_selections (qs : List Question)
    (sels : List String) (_hne : qs ≠ []) (hlen : sels.length = qs.length) :
    (runQuiz qs sels).score = correctCount qs sels ∧
    (∀ k, (runQuiz qs (sels.take k)).score ≤ qs.length) ∧
    (∀ k s a, k < sels.length →
      (selectOption (runQuiz qs (sels.take k)) s a).score ≤ qs.length) := by
  have hstart : ∀ l : List String, l.length ≤ qs.length →
      (runQuiz qs l).score = correctCount qs l := by
    intro l hl
    have := foldl_quizStep_score qs l (startSession qs) rfl rfl
      (by simpa [startSession, loadQuestionState] using hl)
    simpa [runQuiz, startSession, loadQuestionState] using this
  refine ⟨hstart sels (le_of_eq hlen), ?_, ?_⟩
  · intro k
    have htk : (sels.take k).length ≤ qs.length := by
      rw [List.length_take]
      exact le_trans (Nat.min_le_right _ _) (le_of_eq hlen)
    rw [hstart _ htk]
    exact correctCount_le_left qs _
  · intro k s a hk
    have htk : (sels.take k).length ≤ qs.length := by
      rw [List.length_take]
      exact le_trans (Nat.min_le_right _ _) (le_of_eq hlen)
    have hle := selectOption_score_le (runQuiz qs (sels.take k)) s a
    rw [hstart _ htk] at hle
    have hck : correctCount qs (sels.take k) ≤ k := by
      refine le_trans (correctCount_le_right qs _) ?_
      rw [List.length_take]
      exact Nat.min_le_left _ _
    have : k < qs.length := by rw [← hlen]; exact hk
    omega

/-- Witness for the C5 theorem: three questions, answers a, b, a; user
picks a, c, a, scoring 2 with the bounds holding along the run. -/
theorem final_score_counts_correct_selections_witness :
    ([⟨"q1", ["a", "b", "c", "d"], "a"⟩, ⟨"q2", ["a", "b", "c", "d"], "b"⟩,
      ⟨"q3", ["a", "b", "c", "d"], "a"⟩] : List Question) ≠ [] ∧
    (["a", "c", "a"] : List String).length =
      ([⟨"q1", ["a", "b", "c", "d"], "a"⟩, ⟨"q2", ["a", "b", "c", "d"], "b"⟩,
        ⟨"q3", ["a", "b", "c", "d"], "a"⟩] : List Question).length ∧
    ((runQuiz [⟨"q1", ["a", "b", "c", "d"], "a"⟩,
        ⟨"q2", ["a", "b", "c", "d"], "b"⟩,
        ⟨"q3", ["a", "b", "c", "d"], "a"⟩] ["a", "c", "a"]).score =
      correctCount [⟨"q1", ["a", "b", "c", "d"], "a"⟩,
        ⟨"q2", ["a", "b", "c", "d"], "b"⟩,
        ⟨"q3", ["a", "b", "c", "d"], "a"⟩] ["a", "c", "a"] ∧
     (∀ k, (runQuiz [⟨"q1", ["a", "b", "c", "d"], "a"⟩,
        ⟨"q2", ["a", "b", "c", "d"], "b"⟩,
        ⟨"q3", ["a", "b", "c", "d"], "a"⟩] (["a", "c", "a"].take k)).score ≤
        ([⟨"q1", ["a", "b", "c", "d"], "a"⟩, ⟨"q2", ["a", "b", "c", "d"], "b"⟩,
          ⟨"q3", ["a", "b", "c", "d"], "a"⟩] : List Question).length) ∧
     (∀ k s a, k < (["a", "c", "a"] : List String).length →
       (selectOption (runQuiz [⟨"q1", ["a", "b", "c", "d"], "a"⟩,
          ⟨"q2", ["a", "b", "c", "d"], "b"⟩,
          ⟨"q3", ["a", "b", "c", "d"], "a"⟩] (["a", "c", "a"].take k)) s a).score ≤
        ([⟨"q1", ["a", "b", "c", "d"], "a"⟩, ⟨"q2", ["a", "b", "c", "d"], "b"⟩,
          ⟨"q3", ["a", "b", "c", "d"], "a"⟩] : List Question).length)) := by
  exact ⟨by decide, by decide,
    final_score_counts_correct_selections _ _ (by decide) (by decide)⟩

/-- C9: whatever comparator the randomized sort ends up applying, the
options `loadQuestion` renders are a permutation of the current
own `options` of the question — multiset-equal, nothing dropped, duplicated or
altered — and in particular of the same length, 4 for a well-formed
question. -/
theorem rendered_options_permutation (le : String → String → Bool)
    (st : QuizState) :
    ((loadQuestion le st).2).options.Perm (currentQuestion st).options ∧
    ((loadQuestion le st).2).options.length =
      (currentQuestion st).options.length ∧
    ((currentQuestion st).options.length = 4 →
      ((loadQuestion le st).2).options.length = 4) := by
  have hperm : ((currentQuestion st).options.mergeSort le).Perm
      (currentQuestion st).options := List.mergeSort_perm _ le
  refine ⟨hperm, hperm.length_eq, fun h4 => ?_⟩
  rw [show ((loadQuestion le st).2).options =
    (currentQuestion st).options.mergeSort le from rfl]
  rw [hperm.length_eq, h4]

/-- Witness for the C9 theorem: a reverse-ordering comparator on a
concrete question still renders the same four options as a multiset, and
the inner 4-length hypothesis is discharged on that question. -/
theorem rendered_options_permutation_witness :
    ((loadQuestion (fun a b => b < a)
        ⟨[⟨"q", ["a", "b", "c", "d"], "a"⟩], 0, 0, false, none⟩).2).options.Perm
      (currentQuestion
        ⟨[⟨"q", ["a", "b", "c", "d"], "a"⟩], 0, 0, false, none⟩).options ∧
    ((loadQuestion (fun a b => b < a)
        ⟨[⟨"q", ["a", "b", "c", "d"], "a"⟩], 0, 0, false, none⟩).2).options.length = 4 := by
  refine ⟨(rendered_options_permutation (fun a b => b < a)
      ⟨[⟨"q", ["a", "b", "c", "d"], "a"⟩], 0, 0, false, none⟩).1,
    (rendered_options_permutation (fun a b => b < a)
      ⟨[⟨"q", ["a", "b", "c", "d"], "a"⟩], 0, 0, false, none⟩).2.2 (by decide)⟩

/-! ## Claims about the controller -/

/-- C8: starting (and retaking) a quiz creates a fresh session: with a
non-empty question list from the provider call on the current topic, the
resulting session has index 0, score 0, unanswered flag — for every
prior application state — and its questions are exactly the fresh
provider result; `retakeQuiz` is literally `startQuiz` on the unchanged
topic, i.e. a new provider call rather than a replay of the stored
questions. -/
theorem retake_creates_fresh_session
    (provider : String → List Json × Option Alert) (topic : String)
    (app : AppState) (hne : (provider topic).1 ≠ []) :
    retakeQuiz provider topic app = startQuiz provider topic app ∧
    (retakeQuiz provider topic app).1.session.currentQuestionIndex = 0 ∧
    (retakeQuiz provider topic app).1.session.score = 0 ∧
    (retakeQuiz provider topic app).1.session.answeredThisQuestion = false ∧
    (retakeQuiz provider topic app).1.session.currentQuestions =
      (provider topic).1.map toQuestion := by
  have hlen : ((provider topic).1.map toQuestion).length ≠ 0 := by
    rw [List.length_map]
    exact fun h => hne (List.length_eq_zero.mp h)
  refine ⟨rfl, ?_, ?_, ?_, ?_⟩ <;>
    · simp only [retakeQuiz, startQuiz, startQuizWith]
      rw [if_neg hlen]
      simp [loadQuestionState]

/-- Witness for the C8 theorem: a provider returning one fresh question,
applied on top of a finished prior attempt with score 3 over 5 stale
questions. -/
theorem retake_creates_fresh_session_witness :
    (((fun _ => ([goodQ], none)) : String → List Json × Option Alert)
        "Python").1 ≠ [] ∧
    (retakeQuiz (fun _ => ([goodQ], none)) "Python" priorApp =
        startQuiz (fun _ => ([goodQ], none)) "Python" priorApp ∧
     (retakeQuiz (fun _ => ([goodQ], none)) "Python"
        priorApp).1.session.currentQuestionIndex = 0 ∧
     (retakeQuiz (fun _ => ([goodQ], none)) "Python"
        priorApp).1.session.score = 0 ∧
     (retakeQuiz (fun _ => ([goodQ], none)) "Python"
        priorApp).1.session.answeredThisQuestion = false ∧
     (retakeQuiz (fun _ => ([goodQ], none)) "Python"
        priorApp).1.session.currentQuestions =
       ((([goodQ], none) : List Json × Option Alert)).1.map toQuestion) := by
  exact ⟨by simp, retake_creates_fresh_session _ "Python" priorApp (by simp)⟩

/-- C6 counterexample: the claim that a user-visible failure notice is
emitted exactly once per failed start attempt is false for an empty
provider result that passed validation: the model returns the parsed
empty array with no alert, `startQuiz` aborts back to topic selection
with no session — a failed start attempt — yet zero notices are emitted,
not one. -/
theorem empty_result_start_emits_no_notice :
    generateQuestionsWithAI (parseTo (Json.arr [])) sampleResp = ([], none) ∧
    (startQuizFull (parseTo (Json.arr [])) sampleResp priorApp).2.length = 0 ∧
    (startQuizFull (parseTo (Json.arr [])) sampleResp priorApp).2.length ≠ 1 ∧
    (startQuizFull (parseTo (Json.arr []))
        sampleResp priorApp).1.ui.languageSelectionHidden = false ∧
    (startQuizFull (parseTo (Json.arr []))
        sampleResp priorApp).1.ui.quizHidden = true ∧
    (startQuizFull (parseTo (Json.arr []))
        sampleResp priorApp).1.session.currentQuestions = [] := by
  refine ⟨rfl, rfl, ?_, rfl, rfl, rfl⟩
  rw [show (startQuizFull (parseTo (Json.arr [])) sampleResp priorApp).2.length
    = 0 from rfl]
  decide

/-- C6 (amended): on a failed or empty provider result the controller
returns to the topic-selection (Idle) screen — language selection shown,
quiz and score card hidden, loading hidden — with no quiz session
created (the stored question list is empty and the score is not reset),
and the alerts of the attempt are exactly the provider alert: one notice
when the provider call failed, none when it succeeded with an empty
array. -/
theorem failed_or_empty_start_returns_idle
    (parse : Option Json → Except JsErr Json) (resp : ProviderResponse)
    (app : AppState)
    (hempty : (generateQuestionsWithAI parse resp).1 = []) :
    (startQuizFull parse resp app).1.ui.languageSelectionHidden = false ∧
    (startQuizFull parse resp app).1.ui.loadingHidden = true ∧
    (startQuizFull parse resp app).1.ui.quizHidden = true ∧
    (startQuizFull parse resp app).1.ui.scoreCardHidden = true ∧
    (startQuizFull parse resp app).1.session.currentQuestions = [] ∧
    (startQuizFull parse resp app).1.session.score = app.session.score ∧
    (startQuizFull parse resp app).2 =
      (generateQuestionsWithAI parse resp).2.toList ∧
    (∀ a, (generateQuestionsWithAI parse resp).2 = some a →
      (startQuizFull parse resp app).2 = [a]) ∧
    ((generateQuestionsWithAI parse resp).2 = none →
      (startQuizFull parse resp app).2 = []) := by
  refine ⟨?_, ?_, ?_, ?_, ?_, ?_, ?_, ?_, ?_⟩
  · simp [startQuizFull, startQuizWith, hempty]
  · simp [startQuizFull, startQuizWith, hempty]
  · simp [startQuizFull, startQuizWith, hempty]
  · simp [startQuizFull, startQuizWith, hempty]
  · simp [startQuizFull, startQuizWith, hempty]
  · simp [startQuizFull, startQuizWith, hempty]
  · simp [startQuizFull, startQuizWith, hempty]
  · intro a ha
    simp [startQuizFull, startQuizWith, hempty, ha]
  · intro ha
    simp [startQuizFull, startQuizWith, hempty, ha]

/-- Witness for the amended C6 theorem: a 404 transport failure on top of
a finished prior attempt — back to Idle, empty session, exactly the one
transport notice. -/
theorem failed_or_empty_start_returns_idle_witness :
    (generateQuestionsWithAI (parseTo Json.null)
        ⟨false, 404, "nope", .ok Json.null⟩).1 = [] ∧
    ((startQuizFull (parseTo Json.null) ⟨false, 404, "nope", .ok Json.null⟩
        priorApp).1.ui.languageSelectionHidden = false ∧
     (startQuizFull (parseTo Json.null) ⟨false, 404, "nope", .ok Json.null⟩
        priorApp).1.ui.loadingHidden = true ∧
     (startQuizFull (parseTo Json.null) ⟨false, 404, "nope", .ok Json.null⟩
        priorApp).1.ui.quizHidden = true ∧
     (startQuizFull (parseTo Json.null) ⟨false, 404, "nope", .ok Json.null⟩
        priorApp).1.ui.scoreCardHidden = true ∧
     (startQuizFull (parseTo Json.null) ⟨false, 404, "nope", .ok Json.null⟩
        priorApp).1.session.currentQuestions = [] ∧
     (startQuizFull (parseTo Json.null) ⟨false, 404, "nope", .ok Json.null⟩
        priorApp).1.session.score = priorApp.session.score ∧
     (startQuizFull (parseTo Json.null) ⟨false, 404, "nope", .ok Json.null⟩
        priorApp).2 =
       (generateQuestionsWithAI (parseTo Json.null)
         ⟨false, 404, "nope", .ok Json.null⟩).2.toList ∧
     (∀ a, (generateQuestionsWithAI (parseTo Json.null)
         ⟨false, 404, "nope", .ok Json.null⟩).2 = some a →
       (startQuizFull (parseTo Json.null) ⟨false, 404, "nope", .ok Json.null⟩
         priorApp).2 = [a]) ∧
     ((generateQuestionsWithAI (parseTo Json.null)
         ⟨false, 404, "nope", .ok Json.null⟩).2 = none →
       (startQuizFull (parseTo Json.null) ⟨false, 404, "nope", .ok Json.null⟩
         priorApp).2 = [])) := by
  exact ⟨rfl, failed_or_empty_start_returns_idle _ _ priorApp rfl⟩
